import Mathlib

/-!
Verification of the eosiolib crypto layer (`libraries/eosiolib/crypto.hpp`):
variant-tagged public-key/signature types with their equality operators and
wire format, the hash / digest-assertion / key-recovery services, and the
WAX RSA-SHA256 verification overload family.

Bytes are modelled as `Nat` values (reduced mod 256 where produced), machine
words as `Nat` with explicit reduction mod `2^32` / `2^64`.  The hash
primitives themselves are external to the header (only declared there), so
they are modelled from the spec as the standard SHA-256 / SHA-1 / SHA-512 /
RIPEMD-160 algorithms; the abort-on-mismatch discipline of the assert family
is modelled as an `Except` error result, following the spec's design note
that an abort is a distinguished result the caller must propagate.
-/

namespace EosioCrypto

/-! ## Byte utilities -/

/-- Big-endian serialization of `x` into exactly `k` bytes (most significant first). -/
def toBytesBE : Nat → Nat → List Nat
  | 0, _ => []
  | k+1, x => toBytesBE k (x / 256) ++ [x % 256]

/-- Little-endian serialization of `x` into exactly `k` bytes (least significant first). -/
def toBytesLE : Nat → Nat → List Nat
  | 0, _ => []
  | k+1, x => x % 256 :: toBytesLE k (x / 256)

/-- Big-endian interpretation of a byte list as a natural number. -/
def bytesToNatBE (l : List Nat) : Nat :=
  l.foldl (fun acc b => acc * 256 + b) 0

theorem length_toBytesBE (k x : Nat) : (toBytesBE k x).length = k := by
  induction k generalizing x with
  | zero => rfl
  | succ k ih => simp [toBytesBE, ih]

theorem length_toBytesLE (k x : Nat) : (toBytesLE k x).length = k := by
  induction k generalizing x with
  | zero => rfl
  | succ k ih => simp [toBytesLE, ih]

/-! ## Machine words as `Nat` reduced mod `2^32` / `2^64` -/

def M32 : Nat := 2 ^ 32
def M64 : Nat := 2 ^ 64

def add32 (a b : Nat) : Nat := (a + b) % M32
def xor32 (a b : Nat) : Nat := Nat.xor a b
def and32 (a b : Nat) : Nat := Nat.land a b
def or32 (a b : Nat) : Nat := Nat.lor a b
def not32 (a : Nat) : Nat := Nat.xor a (M32 - 1)
def rotl32 (n a : Nat) : Nat := ((a * 2 ^ (n % 32)) % M32) + (a % M32) / 2 ^ (32 - n % 32)
def rotr32 (n a : Nat) : Nat := rotl32 (32 - n % 32) a
def shr32 (n a : Nat) : Nat := a / 2 ^ n

def add64 (a b : Nat) : Nat := (a + b) % M64
def not64 (a : Nat) : Nat := Nat.xor a (M64 - 1)
def rotl64 (n a : Nat) : Nat := ((a * 2 ^ (n % 64)) % M64) + (a % M64) / 2 ^ (64 - n % 64)
def rotr64 (n a : Nat) : Nat := rotl64 (64 - n % 64) a
def shr64 (n a : Nat) : Nat := a / 2 ^ n

/-! ## Hash constants, derived (not transcribed) from their defining primes -/

/-- Trial-division primality test for small numbers. -/
def isSmallPrime (n : Nat) : Bool :=
  2 ≤ n && (List.range (n - 2)).all (fun d => n % (d + 2) ≠ 0 || d + 2 = n)

/-- The first `k` prime numbers. -/
def firstPrimes (k : Nat) : List Nat :=
  ((List.range 420).filter isSmallPrime).take k

/-- Integer cube root by fuelled binary search over `[lo, hi)`. -/
def icbrtGo (n : Nat) : Nat → Nat → Nat → Nat
  | 0, lo, _ => lo
  | f+1, lo, hi =>
    if hi ≤ lo + 1 then lo
    else
      let mid := (lo + hi) / 2
      if mid ^ 3 ≤ n then icbrtGo n f mid hi else icbrtGo n f lo mid

/-- Integer cube root (400 bisection steps cover every operand used here). -/
def icbrt (n : Nat) : Nat := icbrtGo n 400 0 (n + 1)

/-- SHA-256 round constants: fractional bits of the cube roots of the first 64 primes. -/
def K256 : List Nat := (firstPrimes 64).map (fun p => icbrt (p * 2 ^ 96) % M32)

/-- SHA-256 initial state: fractional bits of the square roots of the first 8 primes. -/
def H256init : List Nat := (firstPrimes 8).map (fun p => Nat.sqrt (p * 2 ^ 64) % M32)

/-- SHA-512 round constants: fractional bits of the cube roots of the first 80 primes. -/
def K512 : List Nat := (firstPrimes 80).map (fun p => icbrt (p * 2 ^ 192) % M64)

/-- SHA-512 initial state: fractional bits of the square roots of the first 8 primes. -/
def H512init : List Nat := (firstPrimes 8).map (fun p => Nat.sqrt (p * 2 ^ 128) % M64)

/-- SHA-1 and RIPEMD-160 initial chaining state. -/
def H1init : List Nat := [0x67452301, 0xEFCDAB89, 0x98BADCFE, 0x10325476, 0xC3D2E1F0]

/-- SHA-1 round constants: fractional bits of the square roots of 2, 3, 5, 10. -/
def K1consts : List Nat :=
  [Nat.sqrt (2 * 2 ^ 60), Nat.sqrt (3 * 2 ^ 60), Nat.sqrt (5 * 2 ^ 60), Nat.sqrt (10 * 2 ^ 60)]

/-! ## Block handling -/

/-- Merkle–Damgård padding with a 64-bit big-endian length field (SHA-1/SHA-256). -/
def padBE64 (msg : List Nat) : List Nat :=
  msg ++ [0x80] ++ List.replicate ((64 - (msg.length + 9) % 64) % 64) 0 ++ toBytesBE 8 (8 * msg.length)

/-- Merkle–Damgård padding with a 128-bit big-endian length field (SHA-512). -/
def padBE128 (msg : List Nat) : List Nat :=
  msg ++ [0x80] ++ List.replicate ((128 - (msg.length + 17) % 128) % 128) 0 ++ toBytesBE 16 (8 * msg.length)

/-- Merkle–Damgård padding with a 64-bit little-endian length field (RIPEMD-160). -/
def padLE64 (msg : List Nat) : List Nat :=
  msg ++ [0x80] ++ List.replicate ((64 - (msg.length + 9) % 64) % 64) 0 ++ toBytesLE 8 (8 * msg.length)

/-- Split a list into `k`-element chunks; structural recursion on a fuel
argument (one unit per chunk suffices, since every chunk is nonempty). -/
def chunksGo (k : Nat) : Nat → List Nat → List (List Nat)
  | 0, _ => []
  | _, [] => []
  | fuel+1, x :: xs => (x :: xs).take k :: chunksGo k fuel ((x :: xs).drop k)

/-- Split a byte list into 64-byte blocks. -/
def chunks64 (l : List Nat) : List (List Nat) := chunksGo 64 l.length l

/-- Split a byte list into 128-byte blocks. -/
def chunks128 (l : List Nat) : List (List Nat) := chunksGo 128 l.length l

/-- Parse a block into 32-bit big-endian words. -/
def wordsBE32 (block : List Nat) : List Nat :=
  match block with
  | b0 :: b1 :: b2 :: b3 :: rest => (((b0 * 256 + b1) * 256 + b2) * 256 + b3) :: wordsBE32 rest
  | _ => []

/-- Parse a block into 64-bit big-endian words. -/
def wordsBE64 (block : List Nat) : List Nat :=
  match block with
  | b0 :: b1 :: b2 :: b3 :: b4 :: b5 :: b6 :: b7 :: rest =>
    bytesToNatBE [b0, b1, b2, b3, b4, b5, b6, b7] :: wordsBE64 rest
  | _ => []

/-- Parse a block into 32-bit little-endian words. -/
def wordsLE32 (block : List Nat) : List Nat :=
  match block with
  | b0 :: b1 :: b2 :: b3 :: rest => (((b3 * 256 + b2) * 256 + b1) * 256 + b0) :: wordsLE32 rest
  | _ => []

/-! ## SHA-256 -/

/-- SHA-256 message schedule: extend the 16 block words to 64. -/
def sha256Schedule (w16 : List Nat) : List Nat :=
  (List.range 48).foldl
    (fun w _ =>
      let n := w.length
      let s0 := xor32 (xor32 (rotr32 7 (w.getD (n - 15) 0)) (rotr32 18 (w.getD (n - 15) 0)))
                  (shr32 3 (w.getD (n - 15) 0))
      let s1 := xor32 (xor32 (rotr32 17 (w.getD (n - 2) 0)) (rotr32 19 (w.getD (n - 2) 0)))
                  (shr32 10 (w.getD (n - 2) 0))
      w ++ [(w.getD (n - 16) 0 + s0 + w.getD (n - 7) 0 + s1) % M32])
    w16

/-- One SHA-256 compression round. -/
def sha256Round (st : Nat × Nat × Nat × Nat × Nat × Nat × Nat × Nat) (kw : Nat × Nat) :
    Nat × Nat × Nat × Nat × Nat × Nat × Nat × Nat :=
  match st, kw with
  | (a, b, c, d, e, f, g, h), (k, w) =>
    let S1 := xor32 (xor32 (rotr32 6 e) (rotr32 11 e)) (rotr32 25 e)
    let ch := xor32 (and32 e f) (and32 (not32 e) g)
    let t1 := (h + S1 + ch + k + w) % M32
    let S0 := xor32 (xor32 (rotr32 2 a) (rotr32 13 a)) (rotr32 22 a)
    let mj := xor32 (xor32 (and32 a b) (and32 a c)) (and32 b c)
    ((t1 + (S0 + mj)) % M32, a, b, c, (d + t1) % M32, e, f, g)

/-- SHA-256 compression of one 64-byte block into the chaining state. -/
def sha256Compress (st : Nat × Nat × Nat × Nat × Nat × Nat × Nat × Nat) (block : List Nat) :
    Nat × Nat × Nat × Nat × Nat × Nat × Nat × Nat :=
  match st, (K256.zip (sha256Schedule (wordsBE32 block))).foldl sha256Round st with
  | (a, b, c, d, e, f, g, h), (a2, b2, c2, d2, e2, f2, g2, h2) =>
    (add32 a a2, add32 b b2, add32 c c2, add32 d d2, add32 e e2, add32 f f2, add32 g g2, add32 h h2)

/-- SHA-256 over a byte list, producing the 8 final 32-bit words. -/
def sha256Words (msg : List Nat) : Nat × Nat × Nat × Nat × Nat × Nat × Nat × Nat :=
  (chunks64 (padBE64 msg)).foldl sha256Compress
    (H256init.getD 0 0, H256init.getD 1 0, H256init.getD 2 0, H256init.getD 3 0,
     H256init.getD 4 0, H256init.getD 5 0, H256init.getD 6 0, H256init.getD 7 0)

/-- SHA-256 digest as a 32-byte list. -/
def sha256Bytes (msg : List Nat) : List Nat :=
  match sha256Words msg with
  | (a, b, c, d, e, f, g, h) =>
    toBytesBE 4 a ++ toBytesBE 4 b ++ toBytesBE 4 c ++ toBytesBE 4 d ++
    toBytesBE 4 e ++ toBytesBE 4 f ++ toBytesBE 4 g ++ toBytesBE 4 h

theorem length_sha256Bytes (msg : List Nat) : (sha256Bytes msg).length = 32 := by
  unfold sha256Bytes
  obtain ⟨a, b, c, d, e, f, g, h⟩ := sha256Words msg
  simp [length_toBytesBE]

/-! ## SHA-1 -/

/-- SHA-1 message schedule: extend the 16 block words to 80. -/
def sha1Schedule (w16 : List Nat) : List Nat :=
  (List.range 64).foldl
    (fun w _ =>
      let n := w.length
      w ++ [rotl32 1 (xor32 (xor32 (w.getD (n - 3) 0) (w.getD (n - 8) 0))
                            (xor32 (w.getD (n - 14) 0) (w.getD (n - 16) 0)))])
    w16

/-- SHA-1 round function, selected by the round index. -/
def sha1F (t x y z : Nat) : Nat :=
  if t < 20 then xor32 (and32 x y) (and32 (not32 x) z)
  else if t < 40 then xor32 (xor32 x y) z
  else if t < 60 then or32 (or32 (and32 x y) (and32 x z)) (and32 y z)
  else xor32 (xor32 x y) z

/-- One SHA-1 compression round. -/
def sha1Round (st : Nat × Nat × Nat × Nat × Nat) (tw : Nat × Nat) : Nat × Nat × Nat × Nat × Nat :=
  match st, tw with
  | (a, b, c, d, e), (t, w) =>
    ((rotl32 5 a + sha1F t b c d + e + K1consts.getD (t / 20) 0 + w) % M32, a, rotl32 30 b, c, d)

/-- SHA-1 compression of one 64-byte block into the chaining state. -/
def sha1Compress (st : Nat × Nat × Nat × Nat × Nat) (block : List Nat) : Nat × Nat × Nat × Nat × Nat :=
  match st, ((List.range 80).zip (sha1Schedule (wordsBE32 block))).foldl sha1Round st with
  | (a, b, c, d, e), (a2, b2, c2, d2, e2) =>
    (add32 a a2, add32 b b2, add32 c c2, add32 d d2, add32 e e2)

/-- SHA-1 over a byte list, producing the 5 final 32-bit words. -/
def sha1Words (msg : List Nat) : Nat × Nat × Nat × Nat × Nat :=
  (chunks64 (padBE64 msg)).foldl sha1Compress
    (H1init.getD 0 0, H1init.getD 1 0, H1init.getD 2 0, H1init.getD 3 0, H1init.getD 4 0)

/-- SHA-1 digest as a 20-byte list. -/
def sha1Bytes (msg : List Nat) : List Nat :=
  match sha1Words msg with
  | (a, b, c, d, e) =>
    toBytesBE 4 a ++ toBytesBE 4 b ++ toBytesBE 4 c ++ toBytesBE 4 d ++ toBytesBE 4 e

theorem length_sha1Bytes (msg : List Nat) : (sha1Bytes msg).length = 20 := by
  unfold sha1Bytes
  obtain ⟨a, b, c, d, e⟩ := sha1Words msg
  simp [length_toBytesBE]

/-! ## SHA-512 -/

/-- SHA-512 message schedule: extend the 16 block words to 80. -/
def sha512Schedule (w16 : List Nat) : List Nat :=
  (List.range 64).foldl
    (fun w _ =>
      let n := w.length
      let s0 := Nat.xor (Nat.xor (rotr64 1 (w.getD (n - 15) 0)) (rotr64 8 (w.getD (n - 15) 0)))
                  (shr64 7 (w.getD (n - 15) 0))
      let s1 := Nat.xor (Nat.xor (rotr64 19 (w.getD (n - 2) 0)) (rotr64 61 (w.getD (n - 2) 0)))
                  (shr64 6 (w.getD (n - 2) 0))
      w ++ [(w.getD (n - 16) 0 + s0 + w.getD (n - 7) 0 + s1) % M64])
    w16

/-- One SHA-512 compression round. -/
def sha512Round (st : Nat × Nat × Nat × Nat × Nat × Nat × Nat × Nat) (kw : Nat × Nat) :
    Nat × Nat × Nat × Nat × Nat × Nat × Nat × Nat :=
  match st, kw with
  | (a, b, c, d, e, f, g, h), (k, w) =>
    let S1 := Nat.xor (Nat.xor (rotr64 14 e) (rotr64 18 e)) (rotr64 41 e)
    let ch := Nat.xor (Nat.land e f) (Nat.land (not64 e) g)
    let t1 := (h + S1 + ch + k + w) % M64
    let S0 := Nat.xor (Nat.xor (rotr64 28 a) (rotr64 34 a)) (rotr64 39 a)
    let mj := Nat.xor (Nat.xor (Nat.land a b) (Nat.land a c)) (Nat.land b c)
    ((t1 + (S0 + mj)) % M64, a, b, c, (d + t1) % M64, e, f, g)

/-- SHA-512 compression of one 128-byte block into the chaining state. -/
def sha512Compress (st : Nat × Nat × Nat × Nat × Nat × Nat × Nat × Nat) (block : List Nat) :
    Nat × Nat × Nat × Nat × Nat × Nat × Nat × Nat :=
  match st, (K512.zip (sha512Schedule (wordsBE64 block))).foldl sha512Round st with
  | (a, b, c, d, e, f, g, h), (a2, b2, c2, d2, e2, f2, g2, h2) =>
    (add64 a a2, add64 b b2, add64 c c2, add64 d d2, add64 e e2, add64 f f2, add64 g g2, add64 h h2)

/-- SHA-512 over a byte list, producing the 8 final 64-bit words. -/
def sha512Words (msg : List Nat) : Nat × Nat × Nat × Nat × Nat × Nat × Nat × Nat :=
  (chunks128 (padBE128 msg)).foldl sha512Compress
    (H512init.getD 0 0, H512init.getD 1 0, H512init.getD 2 0, H512init.getD 3 0,
     H512init.getD 4 0, H512init.getD 5 0, H512init.getD 6 0, H512init.getD 7 0)

/-- SHA-512 digest as a 64-byte list. -/
def sha512Bytes (msg : List Nat) : List Nat :=
  match sha512Words msg with
  | (a, b, c, d, e, f, g, h) =>
    toBytesBE 8 a ++ toBytesBE 8 b ++ toBytesBE 8 c ++ toBytesBE 8 d ++
    toBytesBE 8 e ++ toBytesBE 8 f ++ toBytesBE 8 g ++ toBytesBE 8 h

theorem length_sha512Bytes (msg : List Nat) : (sha512Bytes msg).length = 64 := by
  unfold sha512Bytes
  obtain ⟨a, b, c, d, e, f, g, h⟩ := sha512Words msg
  simp [length_toBytesBE]

end EosioCrypto

namespace EosioCrypto

/-! ## RIPEMD-160 -/

/-- RIPEMD-160 round function, selected by the (possibly flipped) round index. -/
def rmdF (j x y z : Nat) : Nat :=
  if j < 16 then xor32 (xor32 x y) z
  else if j < 32 then or32 (and32 x y) (and32 (not32 x) z)
  else if j < 48 then xor32 (or32 x (not32 y)) z
  else if j < 64 then or32 (and32 x z) (and32 y (not32 z))
  else xor32 x (or32 y (not32 z))

/-- RIPEMD-160 left-line constants: fractional bits of the square roots of 2, 3, 5, 7. -/
def rmdKL : List Nat :=
  [0, Nat.sqrt (2 * 2 ^ 60), Nat.sqrt (3 * 2 ^ 60), Nat.sqrt (5 * 2 ^ 60), Nat.sqrt (7 * 2 ^ 60)]

/-- RIPEMD-160 right-line constants: fractional bits of the cube roots of 2, 3, 5, 7. -/
def rmdKR : List Nat :=
  [icbrt (2 * 2 ^ 90), icbrt (3 * 2 ^ 90), icbrt (5 * 2 ^ 90), icbrt (7 * 2 ^ 90), 0]

/-- RIPEMD-160 left-line message word selection. -/
def rmdRL : List Nat :=
  [0, 1, 2, 3, 4, 5, 6, 7, 8, 9, 10, 11, 12, 13, 14, 15,
   7, 4, 13, 1, 10, 6, 15, 3, 12, 0, 9, 5, 2, 14, 11, 8,
   3, 10, 14, 4, 9, 15, 8, 1, 2, 7, 0, 6, 13, 11, 5, 12,
   1, 9, 11, 10, 0, 8, 12, 4, 13, 3, 7, 15, 14, 5, 6, 2,
   4, 0, 5, 9, 7, 12, 2, 10, 14, 1, 3, 8, 11, 6, 15, 13]

/-- RIPEMD-160 right-line message word selection. -/
def rmdRR : List Nat :=
  [5, 14, 7, 0, 9, 2, 11, 4, 13, 6, 15, 8, 1, 10, 3, 12,
   6, 11, 3, 7, 0, 13, 5, 10, 14, 15, 8, 12, 4, 9, 1, 2,
   15, 5, 1, 3, 7, 14, 6, 9, 11, 8, 12, 2, 10, 0, 4, 13,
   8, 6, 4, 1, 3, 11, 15, 0, 5, 12, 2, 13, 9, 7, 10, 14,
   12, 15, 10, 4, 1, 5, 8, 7, 6, 2, 13, 14, 0, 3, 9, 11]

/-- RIPEMD-160 left-line rotation amounts. -/
def rmdSL : List Nat :=
  [11, 14, 15, 12, 5, 8, 7, 9, 11, 13, 14, 15, 6, 7, 9, 8,
   7, 6, 8, 13, 11, 9, 7, 15, 7, 12, 15, 9, 11, 7, 13, 12,
   11, 13, 6, 7, 14, 9, 13, 15, 14, 8, 13, 6, 5, 12, 7, 5,
   11, 12, 14, 15, 14, 15, 9, 8, 9, 14, 5, 6, 8, 6, 5, 12,
   9, 15, 5, 11, 6, 8, 13, 12, 5, 12, 13, 14, 11, 8, 5, 6]

/-- RIPEMD-160 right-line rotation amounts. -/
def rmdSR : List Nat :=
  [8, 9, 9, 11, 13, 15, 15, 5, 7, 7, 8, 11, 14, 14, 12, 6,
   9, 13, 15, 7, 12, 8, 9, 11, 7, 7, 12, 7, 6, 15, 13, 11,
   9, 7, 15, 11, 8, 6, 6, 14, 12, 13, 5, 14, 13, 13, 7, 5,
   15, 5, 8, 11, 14, 14, 6, 14, 6, 9, 12, 9, 12, 5, 15, 8,
   8, 5, 12, 9, 12, 5, 14, 6, 8, 13, 6, 5, 15, 13, 11, 11]

/-- One line (left or right) of the RIPEMD-160 compression: 80 rounds. -/
def rmdLine (x rTab sTab kTab : List Nat) (flip : Bool)
    (st : Nat × Nat × Nat × Nat × Nat) : Nat × Nat × Nat × Nat × Nat :=
  (List.range 80).foldl
    (fun st j =>
      match st with
      | (a, b, c, d, e) =>
        let fj := if flip then 79 - j else j
        let t := add32 (rotl32 (sTab.getD j 0)
                   ((a + rmdF fj b c d + x.getD (rTab.getD j 0) 0 + kTab.getD (j / 16) 0) % M32)) e
        (e, t, b, rotl32 10 c, d))
    st

/-- RIPEMD-160 compression of one 64-byte block into the chaining state. -/
def rmdCompress (st : Nat × Nat × Nat × Nat × Nat) (block : List Nat) : Nat × Nat × Nat × Nat × Nat :=
  let x := wordsLE32 block
  match st, rmdLine x rmdRL rmdSL rmdKL false st, rmdLine x rmdRR rmdSR rmdKR true st with
  | (h0, h1, h2, h3, h4), (al, bl, cl, dl, el), (ar, br, cr, dr, er) =>
    ((h1 + cl + dr) % M32, (h2 + dl + er) % M32, (h3 + el + ar) % M32,
     (h4 + al + br) % M32, (h0 + bl + cr) % M32)

/-- RIPEMD-160 over a byte list, producing the 5 final 32-bit words. -/
def ripemd160Words (msg : List Nat) : Nat × Nat × Nat × Nat × Nat :=
  (chunks64 (padLE64 msg)).foldl rmdCompress
    (H1init.getD 0 0, H1init.getD 1 0, H1init.getD 2 0, H1init.getD 3 0, H1init.getD 4 0)

/-- RIPEMD-160 digest as a 20-byte list (little-endian words). -/
def ripemd160Bytes (msg : List Nat) : List Nat :=
  match ripemd160Words msg with
  | (a, b, c, d, e) =>
    toBytesLE 4 a ++ toBytesLE 4 b ++ toBytesLE 4 c ++ toBytesLE 4 d ++ toBytesLE 4 e

theorem length_ripemd160Bytes (msg : List Nat) : (ripemd160Bytes msg).length = 20 := by
  unfold ripemd160Bytes
  obtain ⟨a, b, c, d, e⟩ := ripemd160Words msg
  simp [length_toBytesLE]

/-! ## Digest types (`fixed_bytes` containers of 20 / 32 / 64 bytes) -/

/-- Fixed 20-byte digest container, modelling `eosio::checksum160`. -/
abbrev checksum160 := { l : List Nat // l.length = 20 }

/-- Fixed 32-byte digest container, modelling `eosio::checksum256`. -/
abbrev checksum256 := { l : List Nat // l.length = 32 }

/-- Fixed 64-byte digest container, modelling `eosio::checksum512`. -/
abbrev checksum512 := { l : List Nat // l.length = 64 }

/-- Fixed 33-byte payload of a `public_key` (`std::array<char,33>`). -/
abbrev Bytes33 := { l : List Nat // l.length = 33 }

/-- Fixed 65-byte payload of a `signature` (`std::array<char,65>`). -/
abbrev Bytes65 := { l : List Nat // l.length = 65 }

/-- Modelled from the spec: the body of `eosio::sha256` (declared in the header,
implemented by the external primitive provider) is the standard SHA-256. -/
def sha256 (data : List Nat) : checksum256 := ⟨sha256Bytes data, length_sha256Bytes data⟩

/-- Modelled from the spec: the body of `eosio::sha1` is the standard SHA-1. -/
def sha1 (data : List Nat) : checksum160 := ⟨sha1Bytes data, length_sha1Bytes data⟩

/-- Modelled from the spec: the body of `eosio::sha512` is the standard SHA-512. -/
def sha512 (data : List Nat) : checksum512 := ⟨sha512Bytes data, length_sha512Bytes data⟩

/-- Modelled from the spec: the body of `eosio::ripemd160` is the standard RIPEMD-160. -/
def ripemd160 (data : List Nat) : checksum160 := ⟨ripemd160Bytes data, length_ripemd160Bytes data⟩

end EosioCrypto

namespace EosioCrypto

/-! ## Key and signature types (`crypto.hpp` lines 33-91) -/

/-- Failure conditions of the crypto layer, named as in the spec's error
taxonomy.  An assert-family abort is modelled as returning `Except.error`
with one of these, following the spec's abort-as-distinguished-result note. -/
inductive CryptoError where
  | DigestMismatch
  | KeyMismatch
  | UnsupportedVariant
  | MalformedSignature
  deriving DecidableEq

/-- EOSIO public key: variant tag (`unsigned_int`, a varuint32 modelled as `Nat`)
plus a fixed 33-byte payload, mirroring `struct public_key`. -/
structure public_key where
  type : Nat
  data : Bytes33
  deriving DecidableEq

/-- EOSIO signature: variant tag plus a fixed 65-byte payload, mirroring
`struct signature`. -/
structure signature where
  type : Nat
  data : Bytes65
  deriving DecidableEq

/-- Model of `public_key::operator==`: `std::tie(a.type,a.data) == std::tie(b.type,b.data)`,
component-wise equality of the `(type, data)` tuple. -/
def public_key.eqOp (a b : public_key) : Bool :=
  a.type == b.type && a.data == b.data

/-- Model of `public_key::operator!=`: `std::tie(a.type,a.data) != std::tie(b.type,b.data)`,
which for `std::tuple` is the negation of tuple equality. -/
def public_key.neqOp (a b : public_key) : Bool :=
  !(a.type == b.type && a.data == b.data)

/-- Model of `signature::operator==` (tuple equality of `(type, data)`). -/
def signature.eqOp (a b : signature) : Bool :=
  a.type == b.type && a.data == b.data

/-- Model of `signature::operator!=` (negation of tuple equality). -/
def signature.neqOp (a b : signature) : Bool :=
  !(a.type == b.type && a.data == b.data)

/-! ## Wire format (`EOSLIB_SERIALIZE(public_key, (type)(data))` and the
signature analogue; the field order is fixed in the header, the varint and
raw-array encodings are modelled from the spec's wire-layout table) -/

/-- Unsigned varint (LEB128) digits; structural recursion on a fuel argument
(the value itself bounds the number of digits, so with fuel `n` the base case
is reached only with `n < 128`). -/
def varuintGo : Nat → Nat → List Nat
  | 0, n => [n % 128]
  | f+1, n => if n < 128 then [n] else (n % 128 + 128) :: varuintGo f (n / 128)

/-- Unsigned varint (LEB128) encoding of an `unsigned_int` tag: little-endian
base-128 digits, the high bit of each byte marking continuation. -/
def serialize_varuint (n : Nat) : List Nat := varuintGo n n

/-- Wire serialization of a `public_key`: varint tag, then the raw 33 data
bytes with no length prefix and no padding. -/
def serialize_public_key (k : public_key) : List Nat :=
  serialize_varuint k.type ++ k.data.val

/-- Wire serialization of a `signature`: varint tag, then the raw 65 data
bytes with no length prefix and no padding. -/
def serialize_signature (s : signature) : List Nat :=
  serialize_varuint s.type ++ s.data.val

/-! ## Digest assertion service (declared in the header at lines 111-143;
bodies are host intrinsics, modelled from the spec: recompute the digest and
abort with `DigestMismatch` unless it equals the expected one byte for byte) -/

/-- Modelled from the spec: body of `eosio::assert_sha256` (only declared in
the header).  Recomputes SHA-256 of `data` and aborts with `DigestMismatch`
unless it matches `hash` exactly. -/
def assert_sha256 (data : List Nat) (hash : checksum256) : Except CryptoError Unit :=
  if sha256 data = hash then .ok () else .error .DigestMismatch

/-- Modelled from the spec: body of `eosio::assert_sha1`. -/
def assert_sha1 (data : List Nat) (hash : checksum160) : Except CryptoError Unit :=
  if sha1 data = hash then .ok () else .error .DigestMismatch

/-- Modelled from the spec: body of `eosio::assert_sha512`. -/
def assert_sha512 (data : List Nat) (hash : checksum512) : Except CryptoError Unit :=
  if sha512 data = hash then .ok () else .error .DigestMismatch

/-- Modelled from the spec: body of `eosio::assert_ripemd160`. -/
def assert_ripemd160 (data : List Nat) (hash : checksum160) : Except CryptoError Unit :=
  if ripemd160 data = hash then .ok () else .error .DigestMismatch

/-! ## Key recovery service (declared at lines 185-203; bodies are host
intrinsics, modelled from the spec with the ECDSA math as an injected
capability `ecrecover : tag → digest → sig bytes → Option point`) -/

/-- Modelled from the spec: body of `eosio::recover_key` (only declared in the
header).  Supported variant tags are 0 (K1) and 1 (R1); an unknown tag fails
with `UnsupportedVariant`, an invalid point/recovery-id encoding (signalled by
the injected ECDSA primitive returning `none`) fails with
`MalformedSignature`, and a recovered key carries the signature's tag. -/
def recover_key (ecrecover : Nat → checksum256 → Bytes65 → Option Bytes33)
    (digest : checksum256) (sig : signature) : Except CryptoError public_key :=
  if sig.type = 0 ∨ sig.type = 1 then
    match ecrecover sig.type digest sig.data with
    | some pt => .ok ⟨sig.type, pt⟩
    | none => .error .MalformedSignature
  else
    .error .UnsupportedVariant

/-- Modelled from the spec: body of `eosio::assert_recover_key`.  Recovers the
key for `(digest, sig)` and compares it to `pubkey` with the tuple-equality
operator of `public_key`; inequality aborts with `KeyMismatch`, and a
recovery failure propagates its own error. -/
def assert_recover_key (ecrecover : Nat → checksum256 → Bytes65 → Option Bytes33)
    (digest : checksum256) (sig : signature) (pubkey : public_key) :
    Except CryptoError Unit :=
  match recover_key ecrecover digest sig with
  | .ok k => if public_key.eqOp k pubkey then .ok () else .error .KeyMismatch
  | .error e => .error e

end EosioCrypto

namespace EosioCrypto

/-! ## RSA PKCS#1 v1.5 SHA-256 verification (`crypto.hpp` lines 216-311).
The four `eosio::verify_rsa_sha256_sig` overloads are defined inline in the
header and funnel into the C entry point `::verify_rsa_sha256_sig`, whose
body lives outside the header and is modelled from the spec. -/

/-- Value of a hex digit, case-insensitive; `none` for a non-hex character. -/
def hexVal (c : Char) : Option Nat :=
  if '0' ≤ c ∧ c ≤ '9' then some (c.toNat - 48)
  else if 'a' ≤ c ∧ c ≤ 'f' then some (c.toNat - 87)
  else if 'A' ≤ c ∧ c ≤ 'F' then some (c.toNat - 55)
  else none

/-- Hex decoding, two characters per byte; odd-length or non-hex input yields
`none`. -/
def hexDecode : List Char → Option (List Nat)
  | [] => some []
  | [_] => none
  | c1 :: c2 :: rest =>
    match hexVal c1, hexVal c2, hexDecode rest with
    | some hi, some lo, some bs => some ((16 * hi + lo) :: bs)
    | _, _, _ => none

/-- DER `DigestInfo` prefix for SHA-256 in PKCS#1 v1.5 signature encoding. -/
def digestInfoSHA256 : List Nat :=
  [0x30, 0x31, 0x30, 0x0d, 0x06, 0x09, 0x60, 0x86, 0x48, 0x01, 0x65,
   0x03, 0x04, 0x02, 0x01, 0x05, 0x00, 0x04, 0x20]

/-- PKCS#1 v1.5 encoding of a SHA-256 digest for a `k`-byte modulus:
`00 01 FF..FF 00 DigestInfo digest` (only meaningful for `62 ≤ k`, which
leaves the mandatory 8 or more `FF` padding bytes). -/
def pkcs1v15SHA256Encode (k : Nat) (digest : List Nat) : List Nat :=
  [0, 1] ++ List.replicate (k - 54) 0xff ++ [0] ++ digestInfoSHA256 ++ digest

/-- Modular exponentiation, the raw RSA public-key operation. -/
def powMod (b e n : Nat) : Nat := b ^ e % n

/-- Core of the modelled RSA check once all three hex inputs have decoded and
the modulus `m0 :: rest` has a nonzero leading byte: a modulus too short for
PKCS#1 v1.5 SHA-256 padding fails, otherwise the raw RSA result must equal
the padded digest encoding byte for byte. -/
def rsaCheckCore (message sigB expB : List Nat) (m0 : Nat) (rest : List Nat) : Bool :=
  if (m0 :: rest).length < 62 then false
  else
    toBytesBE (m0 :: rest).length
        (powMod (bytesToNatBE sigB) (bytesToNatBE expB) (bytesToNatBE (m0 :: rest)))
      == pkcs1v15SHA256Encode (m0 :: rest).length (sha256 message).val

/-- The modelled RSA check on decoded byte strings: an empty modulus and a
modulus with a leading zero byte are rejected outright. -/
def rsaCheckDecoded (message sigB expB modB : List Nat) : Bool :=
  match modB with
  | [] => false
  | m0 :: rest => if m0 = 0 then false else rsaCheckCore message sigB expB m0 rest

/-- Modelled from the spec: the C entry point `::verify_rsa_sha256_sig` (whose
body is outside the header).  Hex-decodes the signature, exponent and modulus
(structural failure returns `false`), rejects an empty modulus and a modulus
with a leading zero byte outright, performs the raw RSA operation and compares
the result against the PKCS#1 v1.5 SHA-256 encoding of `sha256(message)`.
A total `Bool` function: every failure is `false`, never an abort. -/
def verify_rsa_sha256_sig_c (message : List Nat) (sigHex expHex modHex : List Char) : Bool :=
  match hexDecode sigHex, hexDecode expHex, hexDecode modHex with
  | some sigB, some expB, some modB => rsaCheckDecoded message sigB expB modB
  | _, _, _ => false

/-- Model of the inline pointer-plus-length overload of
`eosio::verify_rsa_sha256_sig`: the memory at `message` holds the listed
bytes, of which the first `message_len` are read and handed to the C entry
point. -/
def verify_rsa_sha256_sig_ptr (message : List Nat) (message_len : Nat)
    (sigHex expHex modHex : List Char) : Bool :=
  verify_rsa_sha256_sig_c (message.take message_len) sigHex expHex modHex

/-- Model of the inline `std::string_view` overload: delegates to the
pointer-plus-length overload with `message.data()` and `message.size()`. -/
def verify_rsa_sha256_sig_sv (message : List Nat) (sigHex expHex modHex : List Char) : Bool :=
  verify_rsa_sha256_sig_ptr message message.length sigHex expHex modHex

/-- Model of the `std::vector<T, A>` overload: elements of `sizeofT` bytes
each (`toBytes` gives an element's object representation), delegating to the
pointer-plus-length overload with `message.data()` and
`message.size() * sizeof(T)`. -/
def verify_rsa_sha256_sig_vec {α : Type} (toBytes : α → List Nat) (sizeofT : Nat)
    (message : List α) (sigHex expHex modHex : List Char) : Bool :=
  verify_rsa_sha256_sig_ptr (message.flatMap toBytes) (message.length * sizeofT)
    sigHex expHex modHex

/-- Model of the `std::array<T, N>` overload, identical in body to the vector
overload: `message.size() * sizeof(T)` bytes starting at `message.data()`. -/
def verify_rsa_sha256_sig_arr {α : Type} (toBytes : α → List Nat) (sizeofT : Nat)
    (message : List α) (sigHex expHex modHex : List Char) : Bool :=
  verify_rsa_sha256_sig_ptr (message.flatMap toBytes) (message.length * sizeofT)
    sigHex expHex modHex

end EosioCrypto

namespace EosioCrypto

/-! ## Concrete fixtures: a mock injected ECDSA primitive (the spec treats the
curve math as a substitutable external capability) and small concrete values -/

/-- Mock recovered curve point. -/
def mockPoint : Bytes33 := ⟨List.replicate 33 7, by simp⟩

/-- Mock ECDSA recovery primitive that always recovers `mockPoint`. -/
def mockRecover (_t : Nat) (_d : checksum256) (_s : Bytes65) : Option Bytes33 := some mockPoint

/-- Mock ECDSA recovery primitive that always reports a malformed signature. -/
def mockRecoverFail (_t : Nat) (_d : checksum256) (_s : Bytes65) : Option Bytes33 := none

/-- Concrete all-zero 256-bit digest. -/
def demoDigest : checksum256 := ⟨List.replicate 32 0, by simp⟩

/-- Concrete all-zero signature payload. -/
def demoSigBytes : Bytes65 := ⟨List.replicate 65 0, by simp⟩

/-- Concrete K1 (tag 0) signature. -/
def demoSigK1 : signature := ⟨0, demoSigBytes⟩

/-- Concrete R1 (tag 1) signature. -/
def demoSigR1 : signature := ⟨1, demoSigBytes⟩

/-- Concrete signature with an unknown variant tag. -/
def demoSigX : signature := ⟨2, demoSigBytes⟩

/-- Key the mock primitive recovers for a K1 signature. -/
def goodKey : public_key := ⟨0, mockPoint⟩

/-- A different key (differing tag, same bytes). -/
def otherKey : public_key := ⟨1, mockPoint⟩

/-- Object representation of a `Bool` element for the container overloads. -/
def boolByte (b : Bool) : List Nat := [if b then 1 else 0]

/-! ## Helper lemmas -/

theorem verify_eq_decoded (msg : List Nat) (sigHex expHex modHex : List Char)
    (sigB expB modB : List Nat) (hs : hexDecode sigHex = some sigB)
    (hx : hexDecode expHex = some expB) (hm : hexDecode modHex = some modB) :
    verify_rsa_sha256_sig_c msg sigHex expHex modHex = rsaCheckDecoded msg sigB expB modB := by
  unfold verify_rsa_sha256_sig_c
  rw [hs, hx, hm]


theorem varuintGo_ne_nil (f n : Nat) : varuintGo f n ≠ [] := by
  cases f with
  | zero => simp [varuintGo]
  | succ f =>
    unfold varuintGo
    split <;> simp

theorem serialize_varuint_ne_nil (n : Nat) : serialize_varuint n ≠ [] :=
  varuintGo_ne_nil n n

theorem hexDecode_odd : ∀ l : List Char, l.length % 2 = 1 → hexDecode l = none
  | [], h => by simp at h
  | [_], _ => rfl
  | c1 :: c2 :: rest, h => by
    have h2 : rest.length % 2 = 1 := by
      simp only [List.length_cons] at h
      omega
    simp only [hexDecode, hexDecode_odd rest h2]
    rcases hexVal c1 with _ | v1 <;> rcases hexVal c2 with _ | v2 <;> rfl

theorem length_flatMap_const {α : Type} (f : α → List Nat) (k : Nat)
    (hf : ∀ x, (f x).length = k) (l : List α) : (l.flatMap f).length = l.length * k := by
  induction l with
  | nil => simp
  | cons a t ih => simp [List.flatMap_cons, ih, hf a, Nat.succ_mul, Nat.add_comm]

/-! ## Claim theorems -/

/-- Claim C1: for `public_key` values and for `signature` values, `operator==`
holds exactly when both the variant tag and the data bytes agree component-wise
(tuple equality of `(type, data)`), and `operator!=` holds exactly when
`operator==` does not. -/
theorem c1_tuple_equality (a b : public_key) (s t : signature) :
    (public_key.eqOp a b = true ↔ a.type = b.type ∧ a.data = b.data) ∧
    (public_key.neqOp a b = true ↔ ¬(public_key.eqOp a b = true)) ∧
    (signature.eqOp s t = true ↔ s.type = t.type ∧ s.data = t.data) ∧
    (signature.neqOp s t = true ↔ ¬(signature.eqOp s t = true)) := by
  simp [public_key.eqOp, public_key.neqOp, signature.eqOp, signature.neqOp]
  tauto

/-- Claim C3: for every byte sequence `b`, `assert_sha256 b (sha256 b)`
succeeds, and for every expected digest that differs from `sha256 b` the call
aborts with `DigestMismatch` (modelled as the `Except.error` result the caller
must propagate) rather than returning normally. -/
theorem c3_assert_sha256_roundtrip (b : List Nat) (e : checksum256) :
    assert_sha256 b (sha256 b) = .ok () ∧
    (e ≠ sha256 b ↔ assert_sha256 b e = .error .DigestMismatch) := by
  refine ⟨by simp [assert_sha256], ?_⟩
  unfold assert_sha256
  constructor
  · intro he
    rw [if_neg (fun h => he h.symm)]
  · intro he h
    rw [if_pos h.symm] at he
    exact Except.noConfusion he

/-- Claim C7: each of the four hash functions is a total function on all byte
lists (including the empty list) whose digest length is fixed by the algorithm
alone: 32 bytes for SHA-256, 20 for SHA-1, 64 for SHA-512, 20 for RIPEMD-160.
Determinism and purity hold by construction: each is a computable function of
its input alone. -/
theorem c7_hash_digest_lengths (b : List Nat) :
    (sha256 b).val.length = 32 ∧ (sha1 b).val.length = 20 ∧
    (sha512 b).val.length = 64 ∧ (ripemd160 b).val.length = 20 :=
  ⟨(sha256 b).property, (sha1 b).property, (sha512 b).property, (ripemd160 b).property⟩

/-- Claim C8: the digest assertion service has an assert form for each of the
four hash algorithms — `assert_sha256`, `assert_sha1`, `assert_sha512` and
`assert_ripemd160`, the last not excluded — each taking the data bytes and an
expected digest of that algorithm's width and succeeding exactly when the
recomputed digest matches. -/
theorem c8_assert_family (b : List Nat) (e256 : checksum256) (e160 : checksum160)
    (e512 : checksum512) (er : checksum160) :
    (assert_sha256 b e256 = .ok () ↔ sha256 b = e256) ∧
    (assert_sha1 b e160 = .ok () ↔ sha1 b = e160) ∧
    (assert_sha512 b e512 = .ok () ↔ sha512 b = e512) ∧
    (assert_ripemd160 b er = .ok () ↔ ripemd160 b = er) := by
  unfold assert_sha256 assert_sha1 assert_sha512 assert_ripemd160
  refine ⟨?_, ?_, ?_, ?_⟩ <;> split <;> simp_all

/-- Claim C9: the wire serialization of a `public_key` and of a `signature` is
exactly the varint-encoded variant tag followed immediately by the fixed-size
data bytes (33 for a key, 65 for a signature), in the order `(type, data)`,
with no padding and no length prefix on the data. -/
theorem c9_wire_format (k : public_key) (s : signature) :
    serialize_public_key k = serialize_varuint k.type ++ k.data.val ∧
    k.data.val.length = 33 ∧
    1 ≤ (serialize_varuint k.type).length ∧
    (serialize_public_key k).length = (serialize_varuint k.type).length + 33 ∧
    serialize_signature s = serialize_varuint s.type ++ s.data.val ∧
    s.data.val.length = 65 ∧
    (serialize_signature s).length = (serialize_varuint s.type).length + 65 := by
  refine ⟨rfl, k.data.property, ?_, ?_, rfl, s.data.property, ?_⟩
  · exact List.length_pos.mpr (serialize_varuint_ne_nil k.type)
  · simp [serialize_public_key, k.data.property]
  · simp [serialize_signature, s.data.property]

end EosioCrypto

namespace EosioCrypto

/-- Claim C2: `assert_recover_key digest sig expected` is equivalent to calling
`recover_key digest sig` and comparing the result to `expected` by exact tuple
equality of `(type, data)`: on a recovered key it succeeds exactly when the
tuple matches and aborts with `KeyMismatch` exactly when it does not, and a
recovery failure propagates as the same abort. -/
theorem c2_assert_recover_key_equiv
    (ecrecover : Nat → checksum256 → Bytes65 → Option Bytes33)
    (digest : checksum256) (sig : signature) (expected : public_key) :
    (∀ k, recover_key ecrecover digest sig = .ok k →
      ((assert_recover_key ecrecover digest sig expected = .ok () ↔
          k.type = expected.type ∧ k.data = expected.data) ∧
       (assert_recover_key ecrecover digest sig expected = .error .KeyMismatch ↔
          ¬(k.type = expected.type ∧ k.data = expected.data)))) ∧
    (∀ err, recover_key ecrecover digest sig = .error err →
      assert_recover_key ecrecover digest sig expected = .error err) := by
  constructor
  · intro k hk
    have hmain : assert_recover_key ecrecover digest sig expected
        = if public_key.eqOp k expected then .ok () else .error .KeyMismatch := by
      simp only [assert_recover_key, hk]
    rw [hmain]
    by_cases hcase : public_key.eqOp k expected = true
    · rw [if_pos hcase]
      simp only [public_key.eqOp, Bool.and_eq_true, beq_iff_eq] at hcase
      simp [hcase.1, hcase.2]
    · rw [if_neg hcase]
      simp only [public_key.eqOp, Bool.and_eq_true, beq_iff_eq] at hcase
      simp [hcase]
  · intro err herr
    simp only [assert_recover_key, herr]

/-- Witness for C2 at concrete inputs: with the mock primitive, asserting the
recovered key succeeds, asserting a different key yields `KeyMismatch`, and a
recovery failure propagates. -/
theorem c2_assert_recover_key_equiv_witness :
    assert_recover_key mockRecover demoDigest demoSigK1 goodKey = .ok () ∧
    assert_recover_key mockRecover demoDigest demoSigK1 otherKey = .error .KeyMismatch ∧
    assert_recover_key mockRecoverFail demoDigest demoSigK1 goodKey
      = .error .MalformedSignature :=
  ⟨(((c2_assert_recover_key_equiv mockRecover demoDigest demoSigK1 goodKey).1 goodKey
      rfl).1).mpr ⟨rfl, rfl⟩,
   (((c2_assert_recover_key_equiv mockRecover demoDigest demoSigK1 otherKey).1 goodKey
      rfl).2).mpr (by decide),
   (c2_assert_recover_key_equiv mockRecoverFail demoDigest demoSigK1 goodKey).2
      .MalformedSignature rfl⟩

/-- Claim C4: `recover_key` fails with `UnsupportedVariant` on an unknown
variant tag, fails with `MalformedSignature` when the injected curve primitive
rejects the signature bytes for a supported tag, and any returned key carries
the signature's tag and exactly the point the primitive recovered (never a
garbage key). -/
theorem c4_recover_key_errors
    (ecrecover : Nat → checksum256 → Bytes65 → Option Bytes33)
    (digest : checksum256) (sig : signature) :
    (¬(sig.type = 0 ∨ sig.type = 1) →
      recover_key ecrecover digest sig = .error .UnsupportedVariant) ∧
    ((sig.type = 0 ∨ sig.type = 1) → ecrecover sig.type digest sig.data = none →
      recover_key ecrecover digest sig = .error .MalformedSignature) ∧
    (∀ k, recover_key ecrecover digest sig = .ok k →
      k.type = sig.type ∧ ∃ pt, ecrecover sig.type digest sig.data = some pt ∧ k.data = pt) := by
  refine ⟨?_, ?_, ?_⟩
  · intro h
    simp only [recover_key, if_neg h]
  · intro h hn
    simp only [recover_key, if_pos h, hn]
  · intro k hk
    by_cases h : sig.type = 0 ∨ sig.type = 1
    · simp only [recover_key, if_pos h] at hk
      rcases he : ecrecover sig.type digest sig.data with _ | pt
      · rw [he] at hk
        exact Except.noConfusion hk
      · rw [he] at hk
        cases hk
        exact ⟨rfl, pt, rfl, rfl⟩
    · simp only [recover_key, if_neg h] at hk
      exact Except.noConfusion hk

/-- Witness for C4 at concrete inputs: tag 2 is rejected as unsupported, a
primitive rejection on an R1 signature surfaces as `MalformedSignature`, and
the key recovered from a K1 signature carries tag 0 and the mock point. -/
theorem c4_recover_key_errors_witness :
    recover_key mockRecover demoDigest demoSigX = .error .UnsupportedVariant ∧
    recover_key mockRecoverFail demoDigest demoSigR1 = .error .MalformedSignature ∧
    (goodKey.type = demoSigK1.type ∧
      ∃ pt, mockRecover demoSigK1.type demoDigest demoSigK1.data = some pt ∧
        goodKey.data = pt) :=
  ⟨(c4_recover_key_errors mockRecover demoDigest demoSigX).1 (by decide),
   (c4_recover_key_errors mockRecoverFail demoDigest demoSigR1).2.1 (by decide) rfl,
   (c4_recover_key_errors mockRecover demoDigest demoSigK1).2.2 goodKey rfl⟩

/-- Claim C5: every overload of `verify_rsa_sha256_sig` (string_view, vector,
fixed array) funnels into the canonical pointer-plus-byte-length entry point,
so the verification result depends only on the message byte sequence, not on
the input representation. -/
theorem c5_overloads_funnel {α : Type} (message : List Nat) (toBytes : α → List Nat)
    (k : Nat) (elems : List α) (sigHex expHex modHex : List Char) :
    verify_rsa_sha256_sig_sv message sigHex expHex modHex
      = verify_rsa_sha256_sig_c message sigHex expHex modHex ∧
    verify_rsa_sha256_sig_ptr message message.length sigHex expHex modHex
      = verify_rsa_sha256_sig_c message sigHex expHex modHex ∧
    ((∀ x, (toBytes x).length = k) →
      verify_rsa_sha256_sig_vec toBytes k elems sigHex expHex modHex
        = verify_rsa_sha256_sig_c (elems.flatMap toBytes) sigHex expHex modHex ∧
      verify_rsa_sha256_sig_arr toBytes k elems sigHex expHex modHex
        = verify_rsa_sha256_sig_c (elems.flatMap toBytes) sigHex expHex modHex) := by
  have hptr : ∀ m : List Nat, verify_rsa_sha256_sig_ptr m m.length sigHex expHex modHex
      = verify_rsa_sha256_sig_c m sigHex expHex modHex := by
    intro m
    simp [verify_rsa_sha256_sig_ptr]
  refine ⟨hptr message, hptr message, ?_⟩
  intro hf
  have hlen : (elems.flatMap toBytes).length = elems.length * k :=
    length_flatMap_const toBytes k hf elems
  constructor
  · rw [verify_rsa_sha256_sig_vec, ← hlen]
    exact hptr (elems.flatMap toBytes)
  · rw [verify_rsa_sha256_sig_arr, ← hlen]
    exact hptr (elems.flatMap toBytes)

/-- Witness for C5 at concrete inputs: a two-element `Bool` container with a
one-byte element representation verifies identically to the canonical entry
point on its flattened bytes. -/
theorem c5_overloads_funnel_witness :
    verify_rsa_sha256_sig_vec boolByte 1 [true, false] [] [] []
      = verify_rsa_sha256_sig_c ([true, false].flatMap boolByte) [] [] [] ∧
    verify_rsa_sha256_sig_arr boolByte 1 [true, false] [] [] []
      = verify_rsa_sha256_sig_c ([true, false].flatMap boolByte) [] [] [] :=
  (c5_overloads_funnel [] boolByte 1 [true, false] [] [] []).2.2
    (fun x => by cases x <;> rfl)

/-- Claim C10: the vector and fixed-array overloads compute the message length
as the element count times the element byte width before delegating to the
canonical entry point, and with a uniform element width that byte count covers
the container's full byte content, not just the first element-count bytes. -/
theorem c10_element_width_coverage {α : Type} (toBytes : α → List Nat) (k : Nat)
    (elems : List α) (sigHex expHex modHex : List Char) :
    verify_rsa_sha256_sig_vec toBytes k elems sigHex expHex modHex
      = verify_rsa_sha256_sig_c ((elems.flatMap toBytes).take (elems.length * k))
          sigHex expHex modHex ∧
    verify_rsa_sha256_sig_arr toBytes k elems sigHex expHex modHex
      = verify_rsa_sha256_sig_c ((elems.flatMap toBytes).take (elems.length * k))
          sigHex expHex modHex ∧
    ((∀ x, (toBytes x).length = k) →
      (elems.flatMap toBytes).take (elems.length * k) = elems.flatMap toBytes) := by
  refine ⟨rfl, rfl, ?_⟩
  intro hf
  rw [← length_flatMap_const toBytes k hf elems]
  exact List.take_length _

/-- Witness for C10 at concrete inputs: with one byte per `Bool` element, the
computed byte count covers the container's flattened bytes exactly. -/
theorem c10_element_width_coverage_witness :
    ([false, true].flatMap boolByte).take ([false, true].length * 1)
      = [false, true].flatMap boolByte :=
  (c10_element_width_coverage boolByte 1 [false, true] [] [] []).2.2
    (fun x => by cases x <;> rfl)

end EosioCrypto


namespace EosioCrypto

/-- Claim C6: `verify_rsa_sha256_sig` never aborts the caller: it is a total
`Bool` function, returning `false` for every structural failure — odd-length
or non-hex signature/exponent/modulus strings (hex decoding fails) and a
modulus whose first byte is zero (rejected outright, not stripped) — and
returning `true` exactly when the modulus is long enough for the padding and
the raw RSA result matches the full PKCS#1 v1.5 SHA-256 encoding of the
message digest byte for byte. -/
theorem c6_rsa_check_contract (msg : List Nat) (sigHex expHex modHex : List Char) :
    (verify_rsa_sha256_sig_c msg sigHex expHex modHex = true ∨
     verify_rsa_sha256_sig_c msg sigHex expHex modHex = false) ∧
    (sigHex.length % 2 = 1 ∨ expHex.length % 2 = 1 ∨ modHex.length % 2 = 1 →
      verify_rsa_sha256_sig_c msg sigHex expHex modHex = false) ∧
    (hexDecode sigHex = none ∨ hexDecode expHex = none ∨ hexDecode modHex = none →
      verify_rsa_sha256_sig_c msg sigHex expHex modHex = false) ∧
    (∀ rest, hexDecode modHex = some (0 :: rest) →
      verify_rsa_sha256_sig_c msg sigHex expHex modHex = false) ∧
    (verify_rsa_sha256_sig_c msg sigHex expHex modHex = true ↔
      ∃ sigB expB m0 rest, hexDecode sigHex = some sigB ∧ hexDecode expHex = some expB ∧
        hexDecode modHex = some (m0 :: rest) ∧ m0 ≠ 0 ∧ 62 ≤ (m0 :: rest).length ∧
        toBytesBE (m0 :: rest).length
            (powMod (bytesToNatBE sigB) (bytesToNatBE expB) (bytesToNatBE (m0 :: rest)))
          = pkcs1v15SHA256Encode (m0 :: rest).length (sha256 msg).val) := by
  have hnone : hexDecode sigHex = none ∨ hexDecode expHex = none ∨ hexDecode modHex = none →
      verify_rsa_sha256_sig_c msg sigHex expHex modHex = false := by
    intro h
    unfold verify_rsa_sha256_sig_c
    rcases hs : hexDecode sigHex with _ | sigB
    · rfl
    rcases hx : hexDecode expHex with _ | expB
    · rfl
    rcases hm : hexDecode modHex with _ | modB
    · rfl
    rw [hs, hx, hm] at h
    rcases h with h | h | h <;> exact Option.noConfusion h
  refine ⟨?_, ?_, hnone, ?_, ?_⟩
  · cases verify_rsa_sha256_sig_c msg sigHex expHex modHex
    · exact Or.inr rfl
    · exact Or.inl rfl
  · intro h
    refine hnone ?_
    rcases h with h | h | h
    · exact Or.inl (hexDecode_odd sigHex h)
    · exact Or.inr (Or.inl (hexDecode_odd expHex h))
    · exact Or.inr (Or.inr (hexDecode_odd modHex h))
  · intro rest hm0
    rcases hs : hexDecode sigHex with _ | sigB
    · exact hnone (Or.inl hs)
    rcases hx : hexDecode expHex with _ | expB
    · exact hnone (Or.inr (Or.inl hx))
    rw [verify_eq_decoded msg sigHex expHex modHex sigB expB (0 :: rest) hs hx hm0]
    simp [rsaCheckDecoded]
  · constructor
    · intro h
      rcases hs : hexDecode sigHex with _ | sigB
      · rw [hnone (Or.inl hs)] at h
        exact Bool.noConfusion h
      rcases hx : hexDecode expHex with _ | expB
      · rw [hnone (Or.inr (Or.inl hx))] at h
        exact Bool.noConfusion h
      rcases hm : hexDecode modHex with _ | modB
      · rw [hnone (Or.inr (Or.inr hm))] at h
        exact Bool.noConfusion h
      rw [verify_eq_decoded msg sigHex expHex modHex sigB expB modB hs hx hm] at h
      rcases modB with _ | ⟨m0, rest⟩
      · exact Bool.noConfusion h
      by_cases h0 : m0 = 0
      · subst h0
        simp [rsaCheckDecoded] at h
      · simp only [rsaCheckDecoded, if_neg h0] at h
        unfold rsaCheckCore at h
        by_cases hlen : (m0 :: rest).length < 62
        · rw [if_pos hlen] at h
          exact Bool.noConfusion h
        · rw [if_neg hlen] at h
          rw [beq_iff_eq] at h
          exact ⟨sigB, expB, m0, rest, rfl, rfl, rfl, h0, Nat.le_of_not_lt hlen, h⟩
    · rintro ⟨sigB, expB, m0, rest, hs, hx, hm, h0, hlen, heq⟩
      rw [verify_eq_decoded msg sigHex expHex modHex sigB expB (m0 :: rest) hs hx hm]
      simp only [rsaCheckDecoded, if_neg h0]
      unfold rsaCheckCore
      rw [if_neg (Nat.not_lt_of_le hlen), beq_iff_eq]
      exact heq

end EosioCrypto

namespace EosioCrypto

/-- Witness for C6 at concrete inputs: an odd-length signature hex string, a
non-hex signature string and a modulus with a leading zero byte each make the
check return `false` (never abort). -/
theorem c6_rsa_check_contract_witness :
    verify_rsa_sha256_sig_c [] ['a'] [] [] = false ∧
    verify_rsa_sha256_sig_c [] ['g', 'g'] [] [] = false ∧
    verify_rsa_sha256_sig_c [] [] [] ['0', '0'] = false :=
  ⟨(c6_rsa_check_contract [] ['a'] [] []).2.1 (Or.inl (by decide)),
   (c6_rsa_check_contract [] ['g', 'g'] [] []).2.2.1 (Or.inl (by decide)),
   (c6_rsa_check_contract [] [] [] ['0', '0']).2.2.2.1 [] (by decide)⟩

end EosioCrypto
